import Mathlib

/-!
Shallow embedding of the backup-creation / backup-retrieval subsystem
(influxdb `http` backup handler and client) and of the chronograf
organization-config handlers, translated from `src/server/org_config.go`.

Modelling conventions:
* Go errors are values of the inductive `Err`; a Go `error` return is
  `Option Err` (`none` = nil) or `Except Err α`.
* `go.uber.org/multierr` multi-errors are `List Err` (the ordered list of
  causes); `multierr.Append(left, right)` with non-nil `left` is
  `multierrAppend`.
* Collaborators whose implementation is not part of the source file
  (the storage engine behind `BackupService.CreateBackup` on the server,
  `KVBackupService.Backup`, `os.OpenFile`, `os.RemoveAll`,
  `json.Encoder.Encode`) are oracles: their outcomes are inputs of the
  handler model, so every theorem quantifies over all collaborator
  behaviours.
* Byte streams are `List Nat`.
-/

/-- Go error values used by the embedded code. -/
inductive Err where
  | notFound
  | parseError
  | ioError (msg : String)
  deriving DecidableEq, Repr

/-- `multierr.Append(left, right)` for non-nil `left`: the ordered list of
causes; a nil `right` leaves the single original cause. -/
def multierrAppend (left : Err) (right : Option Err) : List Err :=
  left :: right.toList

namespace bolt

/-- `bolt.DefaultFilename`, the reserved metadata snapshot file name. -/
def DefaultFilename : String := "influxd.bolt"

end bolt

/-- The `backup` manifest struct: `ID int`, `Files []string`. -/
structure Backup where
  id : Int
  files : List String
  deriving DecidableEq, Repr

/-- Outcomes of the collaborators invoked by `BackupHandler.handleCreate`,
in the order the handler consults them. -/
structure CreateOracle where
  /-- `h.BackupService.CreateBackup(ctx)`: fresh id plus staged shard file
  names, or the allocation/staging error. -/
  createResult : Except Err (Int × List String)
  /-- `os.OpenFile(metaFilename, ...)`: `none` = opened. -/
  openResult : Option Err
  /-- `h.KVBackupService.Backup(ctx, metaFile)`: `none` = snapshot written. -/
  kvBackupResult : Option Err
  /-- `json.NewEncoder(w).Encode(&b)`: `none` = manifest delivered. -/
  encodeResult : Option Err
  /-- `os.RemoveAll(internalBackupPath)`: `none` = rollback succeeded.
  Consulted only when the handler performs rollback. -/
  removeResult : Option Err
  deriving Repr

/-- Observable outcome of one `handleCreate` request. -/
structure CreateResult where
  /-- The multi-error passed to `h.HandleHTTPError`, when any. -/
  reported : Option (List Err)
  /-- The manifest successfully encoded to the response, when any. -/
  responded : Option Backup
  /-- Whether `os.OpenFile` on the metadata snapshot path was attempted. -/
  openAttempted : Bool
  /-- Whether `os.RemoveAll(internalBackupPath)` was invoked (rollback). -/
  removeCalled : Bool
  deriving DecidableEq, Repr

/-- `BackupHandler.handleCreate`: allocate id and shard files, open the
metadata snapshot file, write the metadata snapshot, append the reserved
metadata file name, encode the `{ID, Files}` manifest; every failure after
allocation rolls the backup directory back with `os.RemoveAll` and reports
`multierr.Append(err, removeErr)`. -/
def handleCreate (o : CreateOracle) : CreateResult :=
  match o.createResult with
  | .error e => ⟨some [e], none, false, false⟩
  | .ok (id, files) =>
    match o.openResult with
    | some e => ⟨some (multierrAppend e o.removeResult), none, true, true⟩
    | none =>
      match o.kvBackupResult with
      | some e => ⟨some (multierrAppend e o.removeResult), none, true, true⟩
      | none =>
        let files' := files ++ [bolt.DefaultFilename]
        match o.encodeResult with
        | some e => ⟨some (multierrAppend e o.removeResult), none, true, true⟩
        | none => ⟨none, some ⟨id, files'⟩, true, false⟩

/-- **C1.** In `handleCreate`, every failure after the backup directory
exists (metadata open, metadata snapshot write, manifest encode) invokes
`os.RemoveAll` on the backup directory and reports the original error
first, with the rollback error aggregated after it whenever the rollback
itself fails — never swallowed. -/
theorem handleCreate_rollback_aggregates (o : CreateOracle) (id : Int)
    (files : List String) (e : Err)
    (hok : o.createResult = .ok (id, files))
    (hfail : o.openResult = some e ∨
      (o.openResult = none ∧ o.kvBackupResult = some e) ∨
      (o.openResult = none ∧ o.kvBackupResult = none ∧
        o.encodeResult = some e)) :
    (handleCreate o).removeCalled = true ∧
      (handleCreate o).reported = some (e :: o.removeResult.toList) := by
  rcases hfail with h | ⟨h1, h2⟩ | ⟨h1, h2, h3⟩ <;>
    simp [handleCreate, hok, multierrAppend, *]

/-- Witness for C1: a concrete snapshot failure whose rollback also fails;
both causes are surfaced in order. -/
theorem handleCreate_rollback_aggregates_witness :
    (handleCreate ⟨.ok (7, ["000000001.s1"]), none,
        some (.ioError "snapshot failed"), none,
        some (.ioError "rollback failed")⟩).removeCalled = true ∧
      (handleCreate ⟨.ok (7, ["000000001.s1"]), none,
        some (.ioError "snapshot failed"), none,
        some (.ioError "rollback failed")⟩).reported =
        some [.ioError "snapshot failed", .ioError "rollback failed"] :=
  handleCreate_rollback_aggregates _ 7 ["000000001.s1"]
    (.ioError "snapshot failed") rfl (Or.inr (Or.inl ⟨rfl, rfl⟩))

/-- **C6.** If `h.BackupService.CreateBackup` itself fails, `handleCreate`
reports exactly that error and performs no rollback: `os.RemoveAll` is not
invoked and the metadata snapshot file is never opened. -/
theorem handleCreate_allocation_failure (o : CreateOracle) (e : Err)
    (hfail : o.createResult = .error e) :
    (handleCreate o).reported = some [e] ∧
      (handleCreate o).removeCalled = false ∧
      (handleCreate o).openAttempted = false := by
  simp [handleCreate, hfail]

/-- Witness for C6: a concrete failed allocation. -/
theorem handleCreate_allocation_failure_witness :
    (handleCreate ⟨.error (.ioError "disk full"), none, none, none,
        none⟩).reported = some [.ioError "disk full"] ∧
      (handleCreate ⟨.error (.ioError "disk full"), none, none, none,
        none⟩).removeCalled = false ∧
      (handleCreate ⟨.error (.ioError "disk full"), none, none, none,
        none⟩).openAttempted = false :=
  handleCreate_allocation_failure _ (.ioError "disk full") rfl

/-- **C2.** On a successful create the manifest's `Files` is the engine's
shard file list with `bolt.DefaultFilename` appended: non-empty, ending in
the reserved metadata name, which occurs exactly once provided the engine's
shard list does not itself use the reserved name (the server-side storage
engine is outside this file; per the spec the name is reserved for the
metadata snapshot). -/
theorem handleCreate_manifest_files (o : CreateOracle) (id : Int)
    (files : List String)
    (hok : o.createResult = .ok (id, files))
    (hopen : o.openResult = none)
    (hkv : o.kvBackupResult = none)
    (henc : o.encodeResult = none)
    (hres : bolt.DefaultFilename ∉ files) :
    (handleCreate o).responded =
        some ⟨id, files ++ [bolt.DefaultFilename]⟩ ∧
      files ++ [bolt.DefaultFilename] ≠ [] ∧
      (files ++ [bolt.DefaultFilename]).count bolt.DefaultFilename = 1 ∧
      (files ++ [bolt.DefaultFilename]).getLast? =
        some bolt.DefaultFilename := by
  refine ⟨by simp [handleCreate, hok, hopen, hkv, henc], by simp, ?_, ?_⟩
  · rw [List.count_append, List.count_eq_zero.mpr hres]
    simp
  · simp [List.getLast?_concat]

/-- Witness for C2: a concrete successful create. -/
theorem handleCreate_manifest_files_witness :
    (handleCreate ⟨.ok (1, ["000000001.s1"]), none, none, none,
        none⟩).responded = some ⟨1, ["000000001.s1", "influxd.bolt"]⟩ ∧
      ["000000001.s1", "influxd.bolt"] ≠ [] ∧
      (["000000001.s1", "influxd.bolt"] : List String).count "influxd.bolt"
        = 1 ∧
      (["000000001.s1", "influxd.bolt"] : List String).getLast? =
        some "influxd.bolt" :=
  handleCreate_manifest_files _ 1 ["000000001.s1"] rfl rfl rfl rfl
    (by decide)

/-- `encoding/json` rendering of one string, quotes included (escaping of
special characters is immaterial here and omitted). -/
def jsonString (s : String) : String := "\"" ++ s ++ "\""

/-- `encoding/json` rendering of a `[]string` value. -/
def jsonStringList (l : List String) : String :=
  "[" ++ String.intercalate "," (l.map jsonString) ++ "]"

/-- The ordered field list `encoding/json` serializes for the `backup`
struct. Both fields carry the `omitempty` option (`json:"id,omitempty"`,
`json:"files,omitempty"`), so a zero `ID` and an empty `Files` slice are
omitted from the object. -/
def backupJSONFields (b : Backup) : List (String × String) :=
  (if b.id = 0 then [] else [("id", toString b.id)]) ++
    (if b.files = [] then [] else [("files", jsonStringList b.files)])

/-- **C7 (counterexample).** A successful create whose allocated id is `0`
serializes without the `"id"` field: `omitempty` drops it, so the claim
that every success response carries both fields is false. -/
theorem backup_id_field_omitted_when_zero :
    (handleCreate ⟨.ok (0, ["000000001.s1"]), none, none, none,
        none⟩).responded = some ⟨0, ["000000001.s1", "influxd.bolt"]⟩ ∧
      "id" ∉ (backupJSONFields
        ⟨0, ["000000001.s1", "influxd.bolt"]⟩).map Prod.fst := by
  constructor
  · rfl
  · decide

/-- **C7 (amended).** On a successful create the serialized manifest always
carries the `"files"` field (the list is non-empty), and carries the `"id"`
field whenever the allocated id is nonzero; a zero id is omitted by the
struct's `omitempty` tag. -/
theorem backup_success_response_fields (o : CreateOracle) (b : Backup)
    (hresp : (handleCreate o).responded = some b) :
    "files" ∈ (backupJSONFields b).map Prod.fst ∧
      (b.id ≠ 0 → "id" ∈ (backupJSONFields b).map Prod.fst) := by
  have hb : ∃ id files, b = ⟨id, files ++ [bolt.DefaultFilename]⟩ := by
    unfold handleCreate at hresp
    rcases hc : o.createResult with e | ⟨id, files⟩ <;> rw [hc] at hresp
    · simp at hresp
    · rcases ho : o.openResult with _ | e <;> rw [ho] at hresp
      · rcases hk : o.kvBackupResult with _ | e <;> rw [hk] at hresp
        · rcases he : o.encodeResult with _ | e <;> rw [he] at hresp
          · exact ⟨id, files, by simpa using hresp.symm⟩
          · simp at hresp
        · simp at hresp
      · simp at hresp
  obtain ⟨id, files, rfl⟩ := hb
  constructor
  · simp [backupJSONFields]
  · intro hid
    simp only at hid
    simp [backupJSONFields, hid]

/-- Witness for the amended C7: a successful create with nonzero id has
both fields in the serialized object. -/
theorem backup_success_response_fields_witness :
    "files" ∈ (backupJSONFields
        ⟨3, ["000000001.s1", "influxd.bolt"]⟩).map Prod.fst ∧
      ((⟨3, ["000000001.s1", "influxd.bolt"]⟩ : Backup).id ≠ 0 →
        "id" ∈ (backupJSONFields
          ⟨3, ["000000001.s1", "influxd.bolt"]⟩).map Prod.fst) :=
  backup_success_response_fields
    ⟨.ok (3, ["000000001.s1"]), none, none, none, none⟩
    ⟨3, ["000000001.s1", "influxd.bolt"]⟩ rfl

/-- Modelled from the spec: the identity/directory allocation performed
inside the storage engine's `CreateBackup` (its implementation is not part
of this source file) is an atomic fetch-and-increment on a per-orchestrator
counter — "implement via an atomic counter or a mutex-guarded allocation
step". `allocate c` returns the allocated id and the new counter. -/
def allocate (c : Nat) : Nat × Nat := (c, c + 1)

/-- The ids handed out by `n` `CreateBackup` calls racing on one
orchestrator: because each call's allocation is one atomic step, any
concurrent schedule of the `n` allocations is some sequence of `allocate`
steps on the shared counter; this lists the ids in schedule order. -/
def allocateRun : Nat → Nat → List Nat
  | _, 0 => []
  | c, Nat.succ n => (allocate c).1 :: allocateRun (allocate c).2 n

/-- A backup directory handle. Modelled from the spec: "a named container
(keyed by `ID`)" — `BackupService.InternalBackupPath` is not implemented in
this source file (the client stub panics), so the directory is its key. -/
structure BackupDirectory where
  id : Nat
  deriving DecidableEq, Repr

/-- `h.BackupService.InternalBackupPath(id)`: the backup directory scoped
to an allocated identity. -/
def internalBackupPath (id : Nat) : BackupDirectory := ⟨id⟩

theorem allocateRun_eq_range' (c n : Nat) :
    allocateRun c n = List.range' c n := by
  induction n generalizing c with
  | zero => rfl
  | succ n ih => simp [allocateRun, allocate, List.range', ih]

/-- **C3.** Any `n` concurrent `CreateBackup` calls on one orchestrator —
equivalently, by atomicity of allocation, any sequential run of `n`
allocations from any starting counter — receive pairwise distinct backup
ids and write into pairwise distinct backup directories. -/
theorem allocateRun_ids_and_directories_distinct (c n : Nat) :
    (allocateRun c n).Nodup ∧
      ((allocateRun c n).map internalBackupPath).Nodup := by
  have hids : (allocateRun c n).Nodup := by
    rw [allocateRun_eq_range']
    exact List.nodup_range' c n
  refine ⟨hids, hids.map ?_⟩
  intro a b h
  cases h
  rfl

/-- `io.CopyBuffer(w, src, buf)` with a buffer of `buf` bytes: repeatedly
read up to `buf` bytes from the source and append them to the sink. An
empty source copies nothing; `buf = 0` models the panic on an empty buffer
and is never used by the code (its buffer is `make([]byte, 1024*1024)`). -/
def goCopyBuffer (buf : Nat) (src : List Nat) : List Nat :=
  if h : src = [] ∨ buf = 0 then [] else
    src.take buf ++ goCopyBuffer buf (src.drop buf)
termination_by src.length
decreasing_by
  push_neg at h
  obtain ⟨h1, h2⟩ := h
  have hl : 0 < src.length := List.length_pos.mpr h1
  simp only [List.length_drop]
  omega

theorem goCopyBuffer_id (buf : Nat) (src : List Nat) (hbuf : buf ≠ 0) :
    goCopyBuffer buf src = src := by
  refine goCopyBuffer.induct buf (fun l => goCopyBuffer buf l = l) ?_ ?_ src
  · intro s h
    rcases h with h | h
    · rw [goCopyBuffer]
      simp [h]
    · exact absurd h hbuf
  · intro s h ih
    rw [goCopyBuffer]
    rw [dif_neg h, ih]
    exact List.take_append_drop buf s

/-- The on-disk backup file store: an association from `(backupID,
fileName)` to the stored byte sequence. -/
def BackupStore : Type := List ((Int × String) × List Nat)

/-- Resolution of a file reference in the store. -/
def lookupBackupFile : BackupStore → Int → String → Option (List Nat)
  | [], _, _ => none
  | (k, v) :: rest, backupID, fileName =>
    if k = (backupID, fileName) then some v
    else lookupBackupFile rest backupID fileName

/-- Modelled from the spec: the server-side `BackupService.FetchBackupFile`
(the engine-backed implementation is not part of this source file —
`InternalBackupPath` is a panicking stub) "resolves `(backupID, fileName)`
to a path inside the corresponding backup directory; fails with a
not-found condition if the directory or file does not exist", else streams
the file's bytes. -/
def serverFetchBackupFile (store : BackupStore) (backupID : Int)
    (backupFile : String) : Except Err (List Nat) :=
  match lookupBackupFile store backupID backupFile with
  | none => .error .notFound
  | some bytes => .ok bytes

/-- Client `BackupService.FetchBackupFile`: issue the fetch request,
`CheckError` the response before any copy, then stream the body into the
sink `w` via `io.CopyBuffer(w, resp.Body, make([]byte, 1024*1024))`.
Returns the error (if any) and the bytes written to the sink. -/
def FetchBackupFile (store : BackupStore) (backupID : Int)
    (backupFile : String) : Option Err × List Nat :=
  match serverFetchBackupFile store backupID backupFile with
  | .error e => (some e, [])
  | .ok body => (none, goCopyBuffer (1024 * 1024) body)

/-- **C4.** Fetching an existing backup file of any size (the empty file
included) writes to the sink exactly the stored byte sequence: the fixed
1 MiB chunked transfer reproduces the source bytes. -/
theorem FetchBackupFile_roundtrip (store : BackupStore) (backupID : Int)
    (backupFile : String) (bytes : List Nat)
    (h : lookupBackupFile store backupID backupFile = some bytes) :
    FetchBackupFile store backupID backupFile = (none, bytes) := by
  simp only [FetchBackupFile, serverFetchBackupFile, h]
  rw [goCopyBuffer_id _ _ (by norm_num)]

/-- Witness for C4: a one-shard store with an empty file and a small file;
both round-trip. -/
theorem FetchBackupFile_roundtrip_witness :
    FetchBackupFile [((1, "meta.db"), []), ((1, "000000001.s1"), [42, 0, 7])]
        1 "meta.db" = (none, []) ∧
      FetchBackupFile
        [((1, "meta.db"), []), ((1, "000000001.s1"), [42, 0, 7])]
        1 "000000001.s1" = (none, [42, 0, 7]) :=
  ⟨FetchBackupFile_roundtrip _ 1 "meta.db" [] (by decide),
    FetchBackupFile_roundtrip _ 1 "000000001.s1" [42, 0, 7] (by decide)⟩

/-- **C5.** Fetching a `(backupID, fileName)` pair that does not resolve to
a stored file fails with the not-found error and writes nothing at all to
the sink: `CheckError` rejects the response before any copy begins. -/
theorem FetchBackupFile_not_found (store : BackupStore) (backupID : Int)
    (backupFile : String)
    (h : lookupBackupFile store backupID backupFile = none) :
    FetchBackupFile store backupID backupFile = (some .notFound, []) := by
  rw [FetchBackupFile, serverFetchBackupFile, h]

/-- Witness for C5: fetching from a store that lacks the requested pair. -/
theorem FetchBackupFile_not_found_witness :
    FetchBackupFile [((1, "meta.db"), [42])] 2 "meta.db" =
      (some .notFound, []) :=
  FetchBackupFile_not_found _ 2 "meta.db" (by decide)

/-- Decimal digit accumulation used by `strconv.Atoi`: consumes the whole
character list, failing on any non-digit. -/
def goAtoiDigits : Nat → List Char → Option Nat
  | acc, [] => some acc
  | acc, c :: cs =>
    if '0' ≤ c ∧ c ≤ '9' then goAtoiDigits (acc * 10 + (c.toNat - 48)) cs
    else none

/-- The largest value of Go's 64-bit `int`. -/
def int64Max : Nat := 2 ^ 63 - 1

/-- `strconv.Atoi(s)` (= `ParseInt(s, 10, 0)` on a 64-bit platform): an
optional leading `+` or `-` followed by at least one decimal digit and
nothing else, within the 64-bit signed range; `none` is a non-nil error. -/
def goAtoi (s : String) : Option Int :=
  match s.data with
  | [] => none
  | '+' :: rest =>
    match rest with
    | [] => none
    | _ =>
      (goAtoiDigits 0 rest).bind fun n =>
        if n ≤ int64Max then some (Int.ofNat n) else none
  | '-' :: rest =>
    match rest with
    | [] => none
    | _ =>
      (goAtoiDigits 0 rest).bind fun n =>
        if n ≤ 2 ^ 63 then some (-(Int.ofNat n)) else none
  | l =>
    (goAtoiDigits 0 l).bind fun n =>
      if n ≤ int64Max then some (Int.ofNat n) else none

/-- Observable outcome of one `handleFetchFile` request. -/
structure FetchHandlerResult where
  /-- Whether `h.BackupService.FetchBackupFile` was invoked. -/
  fetchCalled : Bool
  /-- The error passed to `h.HandleHTTPError`, when any. -/
  reported : Option Err
  /-- The bytes streamed into the response body. -/
  body : List Nat
  deriving DecidableEq, Repr

/-- `BackupHandler.handleFetchFile`: parse the `backup_id` route parameter
with `strconv.Atoi`; on a parse error, report it and return. Otherwise
invoke the (engine-backed, spec-modelled) `FetchBackupFile`, which streams
the resolved file into the response writer. -/
def handleFetchFile (store : BackupStore) (idStr backupFile : String) :
    FetchHandlerResult :=
  match goAtoi idStr with
  | none => ⟨false, some .parseError, []⟩
  | some backupID =>
    match serverFetchBackupFile store backupID backupFile with
    | .error e => ⟨true, some e, []⟩
    | .ok bytes => ⟨true, none, bytes⟩

/-- **C9.** A fetch request whose `backup_id` segment is not a decimal
integer is answered with the parse error; `FetchBackupFile` is never
invoked and the backup logic writes nothing to the response body. -/
theorem handleFetchFile_bad_id (store : BackupStore)
    (idStr backupFile : String)
    (h : goAtoi idStr = none) :
    handleFetchFile store idStr backupFile =
      ⟨false, some .parseError, []⟩ := by
  rw [handleFetchFile, h]

/-- Witness for C9: `"abc"` is not a decimal integer. -/
theorem handleFetchFile_bad_id_witness :
    handleFetchFile [] "abc" "meta.db" = ⟨false, some .parseError, []⟩ :=
  handleFetchFile_bad_id [] "abc" "meta.db" (by decide)

/-- The fixed client timeout: `httpClientTimeout = time.Hour`, in
nanoseconds (Go `time.Duration` units). -/
def httpClientTimeout : Nat := 3600 * 1000000000

/-- An outbound HTTP request as assembled by the client. -/
structure Request where
  method : String
  url : String
  /-- The `Authorization` header value. -/
  authHeader : String
  deriving DecidableEq, Repr

/-- `http.NewRequest(method, url, nil)`: no headers set yet. -/
def NewRequest (method url : String) : Request :=
  ⟨method, url, ""⟩

/-- `SetToken(token, req)`: sets `Authorization: Token <token>`. -/
def SetToken (token : String) (req : Request) : Request :=
  { req with authHeader := "Token " ++ token }

/-- The HTTP client the backup client builds per call; `NewClient` returns
it with the zero (no) timeout, then the code sets `hc.Timeout`. -/
structure HTTPClient where
  timeout : Nat
  deriving DecidableEq, Repr

/-- `NewClient(scheme, insecure)`: scheme and TLS setting do not affect the
timeout or headers; the zero value has no timeout. -/
def NewClient (scheme : String) (insecure : Bool) : HTTPClient :=
  ⟨0⟩

/-- The client `BackupService` struct. -/
structure BackupService where
  Addr : String
  Token : String
  InsecureSkipVerify : Bool
  deriving DecidableEq, Repr

/-- The request `BackupService.CreateBackup` issues, given the outcome of
`NewURL(s.Addr, backupPath)` (`none` = URL construction failed, no request
is issued): POST, token set, client timeout set to `httpClientTimeout`. -/
def clientCreateBackupCall (s : BackupService) (urlResult : Option String) :
    Option (HTTPClient × Request) :=
  match urlResult with
  | none => none
  | some u =>
    let req := SetToken s.Token (NewRequest "POST" u)
    let hc := { NewClient u s.InsecureSkipVerify with
                  timeout := httpClientTimeout }
    some (hc, req)

/-- The request `BackupService.FetchBackupFile` issues, given the outcome
of `NewURL(s.Addr, composeBackupFilePath(backupID, backupFile))`: GET,
token set, client timeout set to `httpClientTimeout`. -/
def clientFetchBackupFileCall (s : BackupService) (backupID : Int)
    (backupFile : String) (urlResult : Option String) :
    Option (HTTPClient × Request) :=
  match urlResult with
  | none => none
  | some u =>
    let req := SetToken s.Token (NewRequest "GET" u)
    let hc := { NewClient u s.InsecureSkipVerify with
                  timeout := httpClientTimeout }
    some (hc, req)

/-- **C8.** Every request the client `BackupService` actually issues —
whether from `CreateBackup` or from `FetchBackupFile` — carries the
configured token in its `Authorization` header and goes out through a
client whose timeout is `httpClientTimeout`, which is exactly one hour. -/
theorem client_requests_token_and_timeout (s : BackupService)
    (backupID : Int) (backupFile : String) (urlResult : Option String)
    (hc : HTTPClient) (req : Request)
    (hissued : clientCreateBackupCall s urlResult = some (hc, req) ∨
      clientFetchBackupFileCall s backupID backupFile urlResult =
        some (hc, req)) :
    req.authHeader = "Token " ++ s.Token ∧
      hc.timeout = httpClientTimeout ∧
      httpClientTimeout = 3600 * 1000000000 := by
  rcases hissued with h | h <;> rcases hu : urlResult with _ | u <;>
      rw [hu] at h <;>
    simp only [clientCreateBackupCall, clientFetchBackupFileCall] at h
  · exact Option.noConfusion h
  · obtain ⟨h1, h2⟩ := Prod.mk.inj (Option.some.inj h)
    subst h1
    subst h2
    exact ⟨rfl, rfl, rfl⟩
  · exact Option.noConfusion h
  · obtain ⟨h1, h2⟩ := Prod.mk.inj (Option.some.inj h)
    subst h1
    subst h2
    exact ⟨rfl, rfl, rfl⟩

/-- Witness for C8: a concrete `CreateBackup` request carries the token
and the one-hour client timeout. -/
theorem client_requests_token_and_timeout_witness :
    ("Token secret" : String) = "Token " ++ "secret" ∧
      (⟨httpClientTimeout⟩ : HTTPClient).timeout = httpClientTimeout ∧
      httpClientTimeout = 3600 * 1000000000 :=
  client_requests_token_and_timeout ⟨"http://h", "secret", false⟩ 0
    "meta.db" (some "http://h/api/v2/backup") ⟨httpClientTimeout⟩
    ⟨"POST", "http://h/api/v2/backup", "Token secret"⟩
    (Or.inl (by decide))

/-- One entry of a log viewer column's `Encodings`: the fields of
`chronograf.ColumnEncoding` read by the validator. -/
structure ColumnEncoding where
  typ : String
  value : String
  deriving DecidableEq, Repr

/-- `chronograf.LogViewerColumn`: name, position, encodings. -/
structure LogViewerColumn where
  name : String
  position : Int
  encodings : List ColumnEncoding
  deriving DecidableEq, Repr

/-- `chronograf.LogViewerConfig`: the ordered column list. -/
structure LogViewerConfig where
  columns : List LogViewerColumn
  deriving DecidableEq, Repr

/-- The validation errors `validLogViewerConfig` can produce. -/
inductive ConfigErr where
  | noColumns
  | duplicateName (name : String)
  | duplicatePosition
  | invalidVisibility (name : String)
  | missingVisibility (name : String)
  | invalidSeverityFormat (name : String)
  deriving DecidableEq, Repr

/-- The inner encoding loop of `validLogViewerConfig` for one column named
`nm`, carrying the running `iconCount`, `textCount` and `visibility`
counters: a `"visibility"`-typed encoding bumps `visibility` and must have
value `"visible"` or `"hidden"`; in the `"severity"` column any encoding
with value `"icon"` or `"text"` bumps the respective counter. -/
def encodingLoop (nm : String) (iconCount textCount visibility : Nat) :
    List ColumnEncoding → Except ConfigErr (Nat × Nat × Nat)
  | [] => .ok (iconCount, textCount, visibility)
  | e :: rest =>
    if e.typ = "visibility" then
      if e.value = "visible" ∨ e.value = "hidden" then
        if nm = "severity" then
          if e.value = "icon" then
            encodingLoop nm (iconCount + 1) textCount (visibility + 1) rest
          else if e.value = "text" then
            encodingLoop nm iconCount (textCount + 1) (visibility + 1) rest
          else encodingLoop nm iconCount textCount (visibility + 1) rest
        else encodingLoop nm iconCount textCount (visibility + 1) rest
      else .error (.invalidVisibility nm)
    else
      if nm = "severity" then
        if e.value = "icon" then
          encodingLoop nm (iconCount + 1) textCount visibility rest
        else if e.value = "text" then
          encodingLoop nm iconCount (textCount + 1) visibility rest
        else encodingLoop nm iconCount textCount visibility rest
      else encodingLoop nm iconCount textCount visibility rest

/-- The outer column loop of `validLogViewerConfig`, carrying the
`nameMatcher` and `positionMatcher` sets of already-seen values. -/
def columnsLoop (names : List String) (positions : List Int) :
    List LogViewerColumn → Option ConfigErr
  | [] => none
  | clm :: rest =>
    if clm.name ∈ names then some (.duplicateName clm.name)
    else if clm.position ∈ positions then some .duplicatePosition
    else
      match encodingLoop clm.name 0 0 0 clm.encodings with
      | .error e => some e
      | .ok (iconCount, textCount, visibility) =>
        if visibility ≠ 1 then some (.missingVisibility clm.name)
        else if clm.name = "severity" ∧
            (iconCount + textCount = 0 ∨ iconCount > 1 ∨ textCount > 1) then
          some (.invalidSeverityFormat clm.name)
        else columnsLoop (clm.name :: names) (clm.position :: positions) rest

/-- `validLogViewerConfig(cfg)`: `none` means the config is valid. -/
def validLogViewerConfig (cfg : LogViewerConfig) : Option ConfigErr :=
  if cfg.columns = [] then some .noColumns
  else columnsLoop [] [] cfg.columns

/-- `chronograf.OrganizationConfig`: the per-organization config record;
only its log viewer section is relevant here. -/
structure OrganizationConfig where
  logViewer : LogViewerConfig
  deriving DecidableEq, Repr

/-- The organization-config store collaborator, kept abstract over its
state type: `FindOrCreate(ctx, orgID)` and `Update(ctx, config)` as the
spec's `find-or-create(orgID) / update(config)` contract. -/
structure OrgConfigStore (σ : Type) where
  findOrCreate : σ → String → σ × Option OrganizationConfig × Option Err
  update : σ → OrganizationConfig → σ × Option Err

/-- Observable outcome of one `ReplaceLogViewerOrganizationConfig`
request over store state `σ`. -/
structure ReplaceResult (σ : Type) where
  /-- The store state after the request. -/
  store : σ
  findOrCreateCalled : Bool
  updateCalled : Bool
  /-- `true` iff the handler answered 200 with the new log viewer config. -/
  ok : Bool

/-- `Service.ReplaceLogViewerOrganizationConfig`: require an organization
on the context, decode the body (`decoded = none` is a JSON decode
failure), validate with `validLogViewerConfig`, and only then
`FindOrCreate` the config, replace its `LogViewer` section and `Update`
the store. -/
def ReplaceLogViewerOrganizationConfig {σ : Type} (svc : OrgConfigStore σ)
    (orgID : Option String) (decoded : Option LogViewerConfig) (st : σ) :
    ReplaceResult σ :=
  match orgID with
  | none => ⟨st, false, false, false⟩
  | some oid =>
    match decoded with
    | none => ⟨st, false, false, false⟩
    | some logViewerConfig =>
      match validLogViewerConfig logViewerConfig with
      | some _ => ⟨st, false, false, false⟩
      | none =>
        match svc.findOrCreate st oid with
        | (st1, none, _) => ⟨st1, true, false, false⟩
        | (st1, some _, some _) => ⟨st1, true, false, false⟩
        | (st1, some config, none) =>
          let config' := { config with logViewer := logViewerConfig }
          match svc.update st1 config' with
          | (st2, some _) => ⟨st2, true, true, false⟩
          | (st2, none) => ⟨st2, true, true, true⟩

/-- **C10.** If the request body fails JSON decoding, or
`validLogViewerConfig` rejects the decoded config, the handler responds
with an error before touching the store: neither `FindOrCreate` nor
`Update` is called and the store state is unchanged. -/
theorem replaceLogViewer_invalid_leaves_store {σ : Type}
    (svc : OrgConfigStore σ) (oid : String)
    (decoded : Option LogViewerConfig) (st : σ)
    (hbad : decoded = none ∨ ∃ cfg e, decoded = some cfg ∧
      validLogViewerConfig cfg = some e) :
    (ReplaceLogViewerOrganizationConfig svc (some oid) decoded st).store
        = st ∧
      (ReplaceLogViewerOrganizationConfig svc (some oid) decoded
        st).findOrCreateCalled = false ∧
      (ReplaceLogViewerOrganizationConfig svc (some oid) decoded
        st).updateCalled = false ∧
      (ReplaceLogViewerOrganizationConfig svc (some oid) decoded
        st).ok = false := by
  rcases hbad with h | ⟨cfg, e, h, hv⟩ <;> subst h
  · simp [ReplaceLogViewerOrganizationConfig]
  · simp [ReplaceLogViewerOrganizationConfig, hv]

/-- Witness for C10: a decoded config with zero columns is rejected and
the (here: `Nat`-state) store is untouched. -/
theorem replaceLogViewer_invalid_leaves_store_witness :
    (ReplaceLogViewerOrganizationConfig
        ⟨fun st _ => (st + 1, some ⟨⟨[]⟩⟩, none),
          fun st _ => (st + 1, none)⟩ (some "org1") (some ⟨[]⟩) 0).store
        = 0 ∧
      (ReplaceLogViewerOrganizationConfig
        ⟨fun st _ => (st + 1, some ⟨⟨[]⟩⟩, none),
          fun st _ => (st + 1, none)⟩ (some "org1") (some ⟨[]⟩)
        0).findOrCreateCalled = false ∧
      (ReplaceLogViewerOrganizationConfig
        ⟨fun st _ => (st + 1, some ⟨⟨[]⟩⟩, none),
          fun st _ => (st + 1, none)⟩ (some "org1") (some ⟨[]⟩)
        0).updateCalled = false ∧
      (ReplaceLogViewerOrganizationConfig
        ⟨fun st _ => (st + 1, some ⟨⟨[]⟩⟩, none),
          fun st _ => (st + 1, none)⟩ (some "org1") (some ⟨[]⟩)
        0).ok = false :=
  replaceLogViewer_invalid_leaves_store _ "org1" (some ⟨[]⟩) 0
    (Or.inr ⟨⟨[]⟩, .noColumns, rfl, rfl⟩)
